import Mathlib

/-!
Verification of the interview-portal session coordination core.

The definitions below are a shallow embedding of the server
(`src/unnamed/part_000`, second document: the socket.io event handlers,
the in-memory session map, the lazy timer reconciler
`getSessionWithAdjustedTimer`, and the static grading engine
`analyzeDebugFixes`) together with the candidate-side score aggregation
(`src/frontend/src/pages/CandidateInterview.tsx`).

JavaScript specifics are modelled explicitly:
* regular-expression rule predicates are expressed over a small pattern
  language `Pat` covering exactly the constructs the rule table uses
  (literals, `\s*`/`\s+`, negated character classes, lazy any-character
  runs, `\d+`, alternation, capturing groups, negative lookahead), with a
  backtracking matcher that returns candidate matches in JS priority
  order and a leftmost-match search `reSearch` modelling `String.match`;
* `Map` becomes an association list in insertion order;
* optional / possibly-`undefined` fields become `Option`, with JS
  truthiness (`if (x)`) and nullish coalescing (`x ?? d`) modelled
  separately;
* numbers are `Int` (timestamps, durations) or `ℚ` (scores);
  `Math.floor` of the millisecond division is `Int.fdiv`, `Math.round`
  is `⌊x + 1/2⌋`.
-/

namespace InterviewPortal

/-- JS `\s` on the ASCII range (the rule patterns only meet ASCII text). -/
def jsWhitespace (c : Char) : Bool :=
  c = ' ' || c = '\t' || c = '\n' || c = '\r' || c = '\x0b' || c = '\x0c'

/-- Length of the longest prefix of `l` whose characters all satisfy `p`. -/
def runLength (p : Char → Bool) : List Char → Nat
  | [] => 0
  | c :: t => if p c then runLength p t + 1 else 0

/-- The regular-expression subset used by the grading rule table. -/
inductive Pat where
  /-- empty pattern -/
  | eps
  /-- a literal character sequence -/
  | lit (s : String)
  /-- `[..]`: one character out of the given set -/
  | chClass (cs : String)
  /-- `\s*` -/
  | wsStar
  /-- `\s+` -/
  | wsPlus
  /-- `[^cs]*` (greedy) -/
  | notCharStar (cs : String)
  /-- `[^cs]+` (greedy) -/
  | notCharPlus (cs : String)
  /-- `[\s\S]*?`: any character including newline, lazy -/
  | anyStarLazy
  /-- `.*?` without the `s` flag: any character except newline, lazy -/
  | dotStarLazy
  /-- `\d+` (greedy) -/
  | digitsPlus
  /-- concatenation -/
  | seq (p q : Pat)
  /-- alternation `p|q` -/
  | alt (p q : Pat)
  /-- capturing group `(p)` -/
  | grp (p : Pat)
  /-- negative lookahead `(?!p)` -/
  | negAhead (p : Pat)

/-- Concatenation of a list of patterns. -/
def Pat.seqs (l : List Pat) : Pat := l.foldr Pat.seq Pat.eps

/-- All ways to match the pattern against a prefix of `input`, each given as
(remaining suffix, captured group texts), ordered by JS backtracking
priority (greedy quantifiers longest first, lazy quantifiers shortest
first, left alternative before right).  The head of the list is the match
the JS engine reports. -/
def Pat.matches : Pat → List Char → List (List Char × List String)
  | .eps, input => [(input, [])]
  | .lit s, input =>
      if s.data.isPrefixOf input then [(input.drop s.data.length, [])] else []
  | .chClass cs, input =>
      match input with
      | [] => []
      | c :: t => if cs.data.contains c then [(t, [])] else []
  | .wsStar, input =>
      let n := runLength jsWhitespace input
      (List.range (n + 1)).reverse.map (fun k => (input.drop k, []))
  | .wsPlus, input =>
      let n := runLength jsWhitespace input
      (List.range n).reverse.map (fun k => (input.drop (k + 1), []))
  | .notCharStar cs, input =>
      let n := runLength (fun c => !cs.data.contains c) input
      (List.range (n + 1)).reverse.map (fun k => (input.drop k, []))
  | .notCharPlus cs, input =>
      let n := runLength (fun c => !cs.data.contains c) input
      (List.range n).reverse.map (fun k => (input.drop (k + 1), []))
  | .anyStarLazy, input =>
      (List.range (input.length + 1)).map (fun k => (input.drop k, []))
  | .dotStarLazy, input =>
      let n := runLength (fun c => c ≠ '\n') input
      (List.range (n + 1)).map (fun k => (input.drop k, []))
  | .digitsPlus, input =>
      let n := runLength Char.isDigit input
      (List.range n).reverse.map (fun k => (input.drop (k + 1), []))
  | .seq p q, input =>
      (p.matches input).flatMap (fun m =>
        (q.matches m.1).map (fun m2 => (m2.1, m.2 ++ m2.2)))
  | .alt p q, input => p.matches input ++ q.matches input
  | .grp p, input =>
      (p.matches input).map (fun m =>
        (m.1, String.mk (input.take (input.length - m.1.length)) :: m.2))
  | .negAhead p, input =>
      match p.matches input with
      | [] => [(input, [])]
      | _ :: _ => []

/-- JS `String.prototype.match` without the `g` flag: the leftmost match,
returning the full matched text and the captured groups. -/
def reSearch (p : Pat) : List Char → Option (String × List String)
  | [] =>
      match (p.matches []).head? with
      | some m => some ("", m.2)
      | none => none
  | c :: t =>
      match (p.matches (c :: t)).head? with
      | some m => some (String.mk ((c :: t).take ((c :: t).length - m.1.length)), m.2)
      | none => reSearch p t

/-- Truthiness of `code.match(re)`. -/
def reTest (p : Pat) (s : String) : Bool := (reSearch p s.data).isSome

/-- `m ? m[1] : dflt` for a match with one capturing group. -/
def reGroup1D (p : Pat) (s : String) (dflt : String) : String :=
  match reSearch p s.data with
  | some m => m.2.headD ""
  | none => dflt

/-- `m ? m[0] : ''`: the full text of the leftmost match, or `''`. -/
def reFull (p : Pat) (s : String) : String :=
  match reSearch p s.data with
  | some m => m.1
  | none => ""

/-- JS `String.prototype.includes`. -/
def strContains (s pat : String) : Bool :=
  s.data.tails.any (fun t => pat.data.isPrefixOf t)

/-- The server's `TestResult` interface. -/
structure TestResult where
  name : String
  passed : Bool
  message : String
deriving DecidableEq, Repr

/-- Pattern `public\s+<ty>\s+<nm>\([^)]*\)\s*{([^}]+)}` (with the `s` flag)
used by the `selenium-senior` rules to extract one method body as group 1. -/
def methodBodyPat (ty nm : String) : Pat :=
  .seqs [.lit "public", .wsPlus, .lit ty, .wsPlus, .lit (nm ++ "("), .notCharStar ")",
         .lit ")", .wsStar, .lit "\x7b", .grp (.notCharPlus "\x7d"), .lit "\x7d"]

/-- Branch of `analyzeDebugFixes` for `language === 'selenium-senior'` (10 bugs). -/
def seleniumSeniorResults (code : String) : List TestResult :=
  let hasWaitInit := reTest (.seqs [.lit "public", .wsPlus, .lit "SecureLoginPage(",
    .notCharStar ")", .lit ")", .wsStar, .lit "\x7b", .notCharStar "\x7d",
    .lit "this.wait", .wsStar, .lit "=", .wsStar, .lit "new", .wsPlus,
    .lit "WebDriverWait"]) code
  let r1 : TestResult := ⟨"BUG 1", hasWaitInit,
    if hasWaitInit
    then "âœ… PASS - WebDriverWait initialized in SecureLoginPage constructor"
    else "âŒ FAIL - Add \"this.wait = new WebDriverWait(driver, Duration.ofSeconds(10));\" in constructor"⟩
  let enterMethodCode := reGroup1D (methodBodyPat "void" "enterCredentials") code ""
  let hasWaitInEnter := strContains enterMethodCode "wait.until" &&
    (strContains enterMethodCode "visibilityOfElementLocated" ||
      strContains enterMethodCode "elementToBeClickable") &&
    !strContains enterMethodCode "driver.findElement(usernameField)" &&
    !strContains enterMethodCode "driver.findElement(passwordField)"
  let r2 : TestResult := ⟨"BUG 2", hasWaitInEnter,
    if hasWaitInEnter
    then "âœ… PASS - Explicit waits added in enterCredentials method"
    else "âŒ FAIL - Replace driver.findElement with wait.until(ExpectedConditions.visibilityOfElementLocated(...))"⟩
  let errorMethodCode := reGroup1D (methodBodyPat "String" "getErrorMessage") code ""
  let hasWaitInError := strContains errorMethodCode "wait.until" &&
    strContains errorMethodCode "visibilityOfElementLocated" &&
    !strContains errorMethodCode "driver.findElement(errorMessage).getText()"
  let r3 : TestResult := ⟨"BUG 3", hasWaitInError,
    if hasWaitInError
    then "âœ… PASS - Explicit wait added for error message visibility"
    else "âŒ FAIL - Add wait.until(ExpectedConditions.visibilityOfElementLocated(errorMessage)) before getText()"⟩
  let loadMethodCode := reGroup1D (methodBodyPat "void" "loadUserProfile") code ""
  let hasNoThreadSleep := !strContains loadMethodCode "Thread.sleep" &&
    strContains loadMethodCode "wait.until"
  let r4 : TestResult := ⟨"BUG 4", hasNoThreadSleep,
    if hasNoThreadSleep
    then "âœ… PASS - Thread.sleep removed and replaced with proper wait"
    else "âŒ FAIL - Remove Thread.sleep and add wait.until(ExpectedConditions.visibilityOfElementLocated(...))"⟩
  let clickMethodCode := reGroup1D (methodBodyPat "void" "clickEditButton") code ""
  let hasClickableWait := strContains clickMethodCode "wait.until" &&
    strContains clickMethodCode "elementToBeClickable" &&
    !strContains clickMethodCode "driver.findElement(By.id(\"edit-profile-btn\")).click()"
  let r5 : TestResult := ⟨"BUG 5", hasClickableWait,
    if hasClickableWait
    then "âœ… PASS - elementToBeClickable wait added in clickEditButton"
    else "âŒ FAIL - Use wait.until(ExpectedConditions.elementToBeClickable(...)) before clicking"⟩
  let dataMethodCode := reGroup1D (methodBodyPat "boolean" "isDataLoaded") code ""
  let hasWaitInDataLoaded := strContains dataMethodCode "wait.until" &&
    strContains dataMethodCode "visibilityOfElementLocated" &&
    !strContains dataMethodCode "driver.findElement(By.id(\"profile-data\"))"
  let r6 : TestResult := ⟨"BUG 6", hasWaitInDataLoaded,
    if hasWaitInDataLoaded
    then "âœ… PASS - Explicit wait added in isDataLoaded for AJAX completion"
    else "âŒ FAIL - Add wait.until(ExpectedConditions.visibilityOfElementLocated(...)) before checking display"⟩
  let notifMethodCode := reGroup1D (methodBodyPat "int" "getNotificationCount") code ""
  let hasWaitInNotification := strContains notifMethodCode "wait.until" &&
    strContains notifMethodCode "presenceOfElementLocated" &&
    !strContains notifMethodCode "driver.findElement(By.className(\"notification-badge\"))"
  let r7 : TestResult := ⟨"BUG 7", hasWaitInNotification,
    if hasWaitInNotification
    then "âœ… PASS - Explicit wait added for notification badge presence"
    else "âŒ FAIL - Add wait.until(ExpectedConditions.presenceOfElementLocated(...)) before getText()"⟩
  let fillMethodCode := reGroup1D (methodBodyPat "void" "fillUserDetails") code ""
  let hasNoAbsoluteXPath := !strContains fillMethodCode "/html/body/div[1]/div[2]/form/div[1]/input" &&
    (strContains fillMethodCode "By.id(\"name\")" || strContains fillMethodCode "By.name(")
  let r8 : TestResult := ⟨"BUG 8", hasNoAbsoluteXPath,
    if hasNoAbsoluteXPath
    then "âœ… PASS - Absolute XPath replaced with stable locator (By.id or By.name)"
    else "âŒ FAIL - Replace absolute XPath with By.id(\"name\") or By.name(\"fullName\")"⟩
  let hasNoNthChild := !strContains fillMethodCode "nth-child(2)" &&
    (strContains fillMethodCode "By.id(\"email\")" || strContains fillMethodCode "By.name(")
  let r9 : TestResult := ⟨"BUG 9", hasNoNthChild,
    if hasNoNthChild
    then "âœ… PASS - Index-based CSS selector replaced with stable locator"
    else "âŒ FAIL - Replace nth-child selector with By.id(\"email\") or By.name(\"emailAddress\")"⟩
  let submitMethodCode := reGroup1D (methodBodyPat "void" "submitForm") code ""
  let hasNoLinkText := !strContains submitMethodCode "By.linkText(\"Submit Registration\")" &&
    (strContains submitMethodCode "By.id" || strContains submitMethodCode "button[type=" ||
      strContains submitMethodCode "data-testid")
  let r10 : TestResult := ⟨"BUG 10", hasNoLinkText,
    if hasNoLinkText
    then "âœ… PASS - linkText replaced with stable, locale-independent locator"
    else "âŒ FAIL - Replace By.linkText with By.id(\"submit-btn\") or By.cssSelector(\"button[type=\x27submit\x27]\")"⟩
  [r1, r2, r3, r4, r5, r6, r7, r8, r9, r10]

/-- Pattern `public\s+<ty>\s+<nm>\([^)]*\)\s*{[^}]*<tail>` (with the `s` flag),
the `java-calculator` rule shape. -/
def javaMethodPat (ty nm : String) (tail : Pat) : Pat :=
  .seqs [.lit "public", .wsPlus, .lit ty, .wsPlus, .lit (nm ++ "("), .notCharStar ")",
         .lit ")", .wsStar, .lit "\x7b", .notCharStar "\x7d", tail]

/-- Branch of `analyzeDebugFixes` for `language === 'java-calculator'` (8 bugs). -/
def javaCalculatorResults (code : String) : List TestResult :=
  let hasCorrectAdd := strContains code "a + b" &&
    reTest (javaMethodPat "double" "add"
      (.seqs [.lit "a", .wsStar, .lit "+", .wsStar, .lit "b"])) code
  let r1 : TestResult := ⟨"BUG 1", hasCorrectAdd,
    if hasCorrectAdd
    then "✅ PASS - Addition uses correct + operator (a + b)"
    else "❌ FAIL - Change \"a - b\" to \"a + b\" in add() method"⟩
  let hasCorrectSubtract :=
    reTest (javaMethodPat "double" "subtract"
      (.seqs [.lit "a", .wsStar, .lit "-", .wsStar, .lit "b"])) code &&
    !reTest (javaMethodPat "double" "subtract"
      (.seqs [.lit "b", .wsStar, .lit "-", .wsStar, .lit "a"])) code
  let r2 : TestResult := ⟨"BUG 2", hasCorrectSubtract,
    if hasCorrectSubtract
    then "✅ PASS - Subtraction uses correct order (a - b)"
    else "❌ FAIL - Change \"b - a\" to \"a - b\" in subtract() method"⟩
  let hasMultiplyReturn := reTest (javaMethodPat "double" "multiply"
      (.seqs [.lit "return", .wsPlus, .lit "result"])) code
  let r3 : TestResult := ⟨"BUG 3", hasMultiplyReturn,
    if hasMultiplyReturn
    then "✅ PASS - multiply() returns result"
    else "❌ FAIL - Add \"return result;\" at end of multiply() method"⟩
  let hasDivideCheck := reTest (javaMethodPat "double" "divide"
      (.grp (.alt
        (.seqs [.lit "if", .wsStar, .lit "(", .wsStar, .lit "b", .wsStar, .lit "==", .wsStar, .lit "0"])
        (.seqs [.lit "if", .wsStar, .lit "(", .wsStar, .lit "0", .wsStar, .lit "==", .wsStar, .lit "b"])))) code
  let r4 : TestResult := ⟨"BUG 4", hasDivideCheck,
    if hasDivideCheck
    then "✅ PASS - divide() checks for division by zero"
    else "❌ FAIL - Add \"if (b == 0) throw new ArithmeticException()\" before dividing"⟩
  let hasCorrectPower :=
    reTest (.seqs [.lit "Math.pow(", .notCharPlus ",", .lit ",", .wsStar,
      .lit "exponent", .wsStar, .lit ")"]) code &&
    !reTest (.seqs [.lit "Math.pow(", .notCharPlus ",", .lit ",", .wsStar,
      .lit "exponent", .wsStar, .lit "+", .wsStar, .lit "1", .wsStar, .lit ")"]) code
  let r5 : TestResult := ⟨"BUG 5", hasCorrectPower,
    if hasCorrectPower
    then "✅ PASS - power() uses correct exponent value"
    else "❌ FAIL - Remove \"+ 1\" from exponent in Math.pow()"⟩
  let hasCorrectAverage := reTest (javaMethodPat "double" "average"
      (.seqs [.lit "sum", .wsStar, .lit "/", .wsStar, .lit "numbers.length",
        .negAhead (.seqs [.wsStar, .lit "-", .wsStar, .lit "1"])])) code
  let r6 : TestResult := ⟨"BUG 6", hasCorrectAverage,
    if hasCorrectAverage
    then "✅ PASS - average() divides by correct array length"
    else "❌ FAIL - Remove \"- 1\" from denominator in average() method"⟩
  let hasCorrectMax := reTest (javaMethodPat "double" "findMax"
      (.seqs [.lit "if", .wsStar, .lit "(", .wsStar, .lit "numbers[i]", .wsStar,
        .lit ">", .wsStar, .lit "max", .wsStar, .lit ")"])) code
  let r7 : TestResult := ⟨"BUG 7", hasCorrectMax,
    if hasCorrectMax
    then "✅ PASS - findMax() uses correct > comparison"
    else "❌ FAIL - Change \"numbers[i] < max\" to \"numbers[i] > max\" in findMax()"⟩
  let hasCorrectHistorySize :=
    reTest (javaMethodPat "int" "getHistorySize"
      (.seqs [.lit "return", .wsPlus, .lit "history.size()", .wsStar, .lit ";"])) code &&
    !reTest (.seqs [.lit "return", .wsPlus, .lit "history.size()", .wsStar,
      .lit "+", .wsStar, .lit "1"]) code
  let r8 : TestResult := ⟨"BUG 8", hasCorrectHistorySize,
    if hasCorrectHistorySize
    then "✅ PASS - getHistorySize() returns correct history size"
    else "❌ FAIL - Remove \"+ 1\" from getHistorySize() return statement"⟩
  [r1, r2, r3, r4, r5, r6, r7, r8]

/-- Pattern `public void login\(.*?\{[\s\S]*?\n\s*\}` (no `s` flag; `m[0]` used). -/
def loginMethodPat : Pat :=
  .seqs [.lit "public void login(", .dotStarLazy, .lit "\x7b", .anyStarLazy,
         .lit "\n", .wsStar, .lit "\x7d"]

/-- Pattern `public String getErrorMessage\(.*?\{[\s\S]*?\n\s*\}` (no `s` flag). -/
def getErrorMessagePat : Pat :=
  .seqs [.lit "public String getErrorMessage(", .dotStarLazy, .lit "\x7b", .anyStarLazy,
         .lit "\n", .wsStar, .lit "\x7d"]

/-- Pattern `public <sig>\([^)]*\)\s*\{([^}]*)\}` (with the `s` flag), used for
`addProductToCart`, `isProductInCart` and `getCartItemCount`. -/
def waitsMethodPat (sig : String) : Pat :=
  .seqs [.lit ("public " ++ sig ++ "("), .notCharStar ")", .lit ")", .wsStar,
         .lit "\x7b", .grp (.notCharStar "\x7d"), .lit "\x7d"]

/-- Pattern `public void fillRegistrationForm\([^)]*\)[^{]*\{([\s\S]*?)\n\s*}\s*public`. -/
def fillRegistrationFormPat : Pat :=
  .seqs [.lit "public void fillRegistrationForm(", .notCharStar ")", .lit ")",
         .notCharStar "\x7b", .lit "\x7b", .grp .anyStarLazy, .lit "\n", .wsStar,
         .lit "\x7d", .wsStar, .lit "public"]

/-- Branch of `analyzeDebugFixes` for `language === 'selenium-combined'`
(all 3 scenarios, 11 checks). -/
def seleniumCombinedResults (code : String) : List TestResult :=
  let hasWaitInit := strContains code "this.wait = new WebDriverWait" ||
    strContains code "wait = new WebDriverWait"
  let r1 : TestResult := ⟨"Scenario 1: Page Object Pattern - BUG 1", hasWaitInit,
    if hasWaitInit
    then "âœ… PASS - WebDriverWait initialized in constructor"
    else "âŒ FAIL - WebDriverWait object not initialized in constructor"⟩
  let loginMethodCode := reFull loginMethodPat code
  let hasDirectFind := strContains loginMethodCode "driver.findElement"
  let hasWaitInLogin := strContains loginMethodCode "wait.until" &&
    strContains loginMethodCode "elementToBeClickable"
  let r2 : TestResult := ⟨"Scenario 1: Page Object Pattern - BUG 2",
    !hasDirectFind && hasWaitInLogin,
    if !hasDirectFind && hasWaitInLogin
    then "âœ… PASS - Explicit waits added in login() method"
    else "âŒ FAIL - login() method needs explicit waits before element interactions"⟩
  let errorMethodCode := reFull getErrorMessagePat code
  let hasDirectFindInError := strContains errorMethodCode "driver.findElement(errorMessage)"
  let hasWaitInError := strContains errorMethodCode "wait.until" &&
    (strContains errorMethodCode "visibilityOfElementLocated" ||
      strContains errorMethodCode "presenceOfElementLocated")
  let r3 : TestResult := ⟨"Scenario 1: Page Object Pattern - BUG 3",
    !hasDirectFindInError && hasWaitInError,
    if !hasDirectFindInError && hasWaitInError
    then "âœ… PASS - Error message wait condition added"
    else "âŒ FAIL - getErrorMessage() must wait for element visibility"⟩
  let addProductContent := reGroup1D (waitsMethodPat "void addProductToCart") code ""
  let hasThreadSleepInAdd := strContains addProductContent "Thread.sleep("
  let r4 : TestResult := ⟨"Scenario 2: Wait Conditions - BUG 1", !hasThreadSleepInAdd,
    if !hasThreadSleepInAdd
    then "âœ… PASS - Thread.sleep replaced with proper waits"
    else "âŒ FAIL - Thread.sleep found - replace with explicit WebDriverWait"⟩
  let hasClickableInAdd := strContains addProductContent "elementToBeClickable"
  let r5 : TestResult := ⟨"Scenario 2: Wait Conditions - BUG 2", hasClickableInAdd,
    if hasClickableInAdd
    then "âœ… PASS - Using elementToBeClickable() before click"
    else "âŒ FAIL - addProductToCart() needs elementToBeClickable wait"⟩
  let isProductContent := reGroup1D (waitsMethodPat "boolean isProductInCart") code ""
  let hasTextWaitInCart := strContains isProductContent "textToBePresentInElement"
  let r6 : TestResult := ⟨"Scenario 2: Wait Conditions - BUG 3", hasTextWaitInCart,
    if hasTextWaitInCart
    then "âœ… PASS - Cart update wait condition added"
    else "âŒ FAIL - isProductInCart() needs textToBePresentInElement wait"⟩
  let getCountContent := reGroup1D (waitsMethodPat "int getCartItemCount") code ""
  let hasBadgeWaitInCount := strContains getCountContent "presenceOfElementLocated"
  let r7 : TestResult := ⟨"Scenario 2: Wait Conditions - BUG 4", hasBadgeWaitInCount,
    if hasBadgeWaitInCount
    then "âœ… PASS - Badge wait condition added"
    else "âŒ FAIL - getCartItemCount() needs presenceOfElementLocated wait"⟩
  let fillFormContent := reGroup1D fillRegistrationFormPat code code
  let hasAbsXPathInForm := strContains fillFormContent "/html/body/div[1]"
  let r8 : TestResult := ⟨"Scenario 3: Locator Strategy - BUG 1", !hasAbsXPathInForm,
    if !hasAbsXPathInForm
    then "âœ… PASS - Absolute XPath removed"
    else "âŒ FAIL - Replace absolute XPath with stable ID locator"⟩
  let hasIndexInForm := strContains code ":nth-child"
  let r9 : TestResult := ⟨"Scenario 3: Locator Strategy - BUG 2", !hasIndexInForm,
    if !hasIndexInForm
    then "âœ… PASS - Index-based selector removed"
    else "âŒ FAIL - Replace :nth-child selector with ID attribute"⟩
  let hasTextXPathInForm := strContains code "contains(text(),"
  let r10 : TestResult := ⟨"Scenario 3: Locator Strategy - BUG 3", !hasTextXPathInForm,
    if !hasTextXPathInForm
    then "âœ… PASS - Text-based XPath removed"
    else "âŒ FAIL - Replace contains(text(),) XPath with ID locator"⟩
  let hasLinkTextInSubmit := strContains code "By.linkText"
  let r11 : TestResult := ⟨"Scenario 3: Locator Strategy - BUG 4", !hasLinkTextInSubmit,
    if !hasLinkTextInSubmit
    then "âœ… PASS - LinkText replaced with stable locator"
    else "âŒ FAIL - Replace By.linkText with button type selector"⟩
  [r1, r2, r3, r4, r5, r6, r7, r8, r9, r10, r11]

/-- Legacy `switch` case `'selenium-pageobject'` (3 checks). -/
def seleniumPageobjectResults (code : String) : List TestResult :=
  let hasWaitInit := strContains code "this.wait = new WebDriverWait" ||
    strContains code "wait = new WebDriverWait"
  let r1 : TestResult := ⟨"Test 1 (BUG 1): Fix WebDriverWait Initialization", hasWaitInit,
    if hasWaitInit
    then "âœ… PASS - WebDriverWait initialized in constructor"
    else "âŒ FAIL - WebDriverWait object not initialized in constructor"⟩
  let loginMethodCode := reFull loginMethodPat code
  let hasDirectFind := strContains loginMethodCode "driver.findElement"
  let hasWaitInLogin := strContains loginMethodCode "wait.until" &&
    strContains loginMethodCode "elementToBeClickable"
  let r2 : TestResult := ⟨"Test 2 (BUG 2): Fix Login Method Waits",
    !hasDirectFind && hasWaitInLogin,
    if !hasDirectFind && hasWaitInLogin
    then "âœ… PASS - Explicit waits added in login() method"
    else "âŒ FAIL - login() method needs explicit waits before element interactions"⟩
  let errorMethodCode := reFull getErrorMessagePat code
  let hasDirectFindInError := strContains errorMethodCode "driver.findElement(errorMessage)"
  let hasWaitInError := strContains errorMethodCode "wait.until" &&
    (strContains errorMethodCode "visibilityOfElementLocated" ||
      strContains errorMethodCode "presenceOfElementLocated")
  let r3 : TestResult := ⟨"Test 3 (BUG 3): Fix Error Message Wait",
    !hasDirectFindInError && hasWaitInError,
    if !hasDirectFindInError && hasWaitInError
    then "âœ… PASS - Error message wait condition added"
    else "âŒ FAIL - getErrorMessage() must wait for element visibility"⟩
  [r1, r2, r3]

/-- Legacy `switch` case `'selenium-waits'` (4 checks). -/
def seleniumWaitsResults (code : String) : List TestResult :=
  let addProductContent := reGroup1D (waitsMethodPat "void addProductToCart") code ""
  let hasThreadSleepInAdd := strContains addProductContent "Thread.sleep("
  let r1 : TestResult := ⟨"Test 1 (BUG 1): Remove Thread.sleep", !hasThreadSleepInAdd,
    if !hasThreadSleepInAdd
    then "âœ… PASS - Thread.sleep replaced with proper waits"
    else "âŒ FAIL - Thread.sleep found in addProductToCart() - replace with explicit WebDriverWait"⟩
  let hasClickableInAdd := strContains addProductContent "elementToBeClickable"
  let r2 : TestResult := ⟨"Test 2 (BUG 2): Add Clickable Wait", hasClickableInAdd,
    if hasClickableInAdd
    then "âœ… PASS - Using elementToBeClickable() before click in addProductToCart()"
    else "âŒ FAIL - addProductToCart() needs elementToBeClickable wait before interaction"⟩
  let isProductContent := reGroup1D (waitsMethodPat "boolean isProductInCart") code ""
  let hasTextWaitInCart := strContains isProductContent "textToBePresentInElement"
  let r3 : TestResult := ⟨"Test 3 (BUG 3): Add Cart Update Wait", hasTextWaitInCart,
    if hasTextWaitInCart
    then "âœ… PASS - Cart update wait condition added in isProductInCart()"
    else "âŒ FAIL - isProductInCart() needs textToBePresentInElement wait for cart update"⟩
  let getCountContent := reGroup1D (waitsMethodPat "int getCartItemCount") code ""
  let hasBadgeWaitInCount := strContains getCountContent "presenceOfElementLocated"
  let r4 : TestResult := ⟨"Test 4 (BUG 4): Add Badge Presence Wait", hasBadgeWaitInCount,
    if hasBadgeWaitInCount
    then "âœ… PASS - Badge wait condition added in getCartItemCount()"
    else "âŒ FAIL - getCartItemCount() needs presenceOfElementLocated wait for badge"⟩
  [r1, r2, r3, r4]

/-- Legacy `switch` case `'selenium-locators'` (4 checks).  Note that the
extraction fallback here is the whole source (`fillFormMatch ? fillFormMatch[1] : code`). -/
def seleniumLocatorsResults (code : String) : List TestResult :=
  let fillFormContent := reGroup1D fillRegistrationFormPat code code
  let hasAbsXPathInForm := strContains fillFormContent "/html/body/div[1]"
  let r1 : TestResult := ⟨"Test 1 (BUG 1): Fix Absolute XPath", !hasAbsXPathInForm,
    if !hasAbsXPathInForm
    then "âœ… PASS - Absolute XPath removed from fillRegistrationForm()"
    else "âŒ FAIL - fillRegistrationForm() has absolute XPath /html/body/... - use stable ID locator"⟩
  let hasIndexInForm := strContains code ":nth-child"
  let r2 : TestResult := ⟨"Test 2 (BUG 2): Fix Index-Based Selector", !hasIndexInForm,
    if !hasIndexInForm
    then "âœ… PASS - Index-based selector removed from fillRegistrationForm()"
    else "âŒ FAIL - fillRegistrationForm() has :nth-child selector - use ID attribute"⟩
  let hasTextXPathInForm := strContains code "contains(text(),"
  let r3 : TestResult := ⟨"Test 3 (BUG 3): Fix Text-Based XPath", !hasTextXPathInForm,
    if !hasTextXPathInForm
    then "âœ… PASS - Text-based XPath removed from fillRegistrationForm()"
    else "âŒ FAIL - fillRegistrationForm() has contains(text(),) XPath - use ID locator"⟩
  let hasLinkTextInSubmit := strContains code "By.linkText"
  let r4 : TestResult := ⟨"Test 4 (BUG 4): Fix LinkText Locator", !hasLinkTextInSubmit,
    if !hasLinkTextInSubmit
    then "âœ… PASS - LinkText replaced with stable locator in submitForm()"
    else "âŒ FAIL - submitForm() uses By.linkText - use button type selector instead"⟩
  [r1, r2, r3, r4]

/-- The server's `analyzeDebugFixes(code, language)`: dispatch over the
challenge-variant identifier with a single synthetic failing outcome as the
`switch` default. -/
def analyzeDebugFixes (code : String) (language : String) : List TestResult :=
  if language = "selenium-senior" then seleniumSeniorResults code
  else if language = "java-calculator" then javaCalculatorResults code
  else if language = "selenium-combined" then seleniumCombinedResults code
  else if language = "selenium-pageobject" then seleniumPageobjectResults code
  else if language = "selenium-waits" then seleniumWaitsResults code
  else if language = "selenium-locators" then seleniumLocatorsResults code
  else [⟨"Unknown Test", false, "Select a debugging challenge to see test results"⟩]

/-! ## Session store, timer reconciler and event handlers -/

/-- Session lifecycle status. -/
inductive SessionStatus where
  | waiting
  | active
  | completed
deriving DecidableEq, Repr

/-- The server's `InterviewSession` interface.  Optional (possibly
`undefined`) fields are `Option`; timestamps are Unix milliseconds. -/
structure InterviewSession where
  id : String
  candidateName : String
  problem : String
  problemDescription : String
  code : String
  language : String
  status : SessionStatus
  output : Option String
  createdAt : Int
  isInstructionPhase : Option Bool
  instructionTimeRemaining : Option Int
  codingTimeRemaining : Option Int
  lastTimerUpdate : Option Int
deriving DecidableEq, Repr

/-- JS truthiness of an optional number (`undefined` and `0` are falsy). -/
def jsTruthyNum (v : Option Int) : Bool :=
  match v with
  | none => false
  | some n => n ≠ 0

/-- JS truthiness of an optional string (`undefined` and `''` are falsy). -/
def jsTruthyStr (v : Option String) : Bool :=
  match v with
  | none => false
  | some s => s ≠ ""

/-- The process-wide `sessions: Map<string, InterviewSession>`, as an
association list in insertion order. -/
abbrev Sessions := List (String × InterviewSession)

/-- `sessions.get(id)`. -/
def Sessions.get : Sessions → String → Option InterviewSession
  | [], _ => none
  | (k, v) :: rest, id => if k = id then some v else Sessions.get rest id

/-- `sessions.set(id, s)`: replace in place, or append when the key is new. -/
def Sessions.set : Sessions → String → InterviewSession → Sessions
  | [], id, s => [(id, s)]
  | (k, v) :: rest, id, s =>
      if k = id then (k, s) :: rest else (k, v) :: Sessions.set rest id s

/-- `getSessionWithAdjustedTimer(session)`: lazy pull-based timer
reconciliation.  `now` stands for `Date.now()`. -/
def getSessionWithAdjustedTimer (now : Int) (session : InterviewSession) :
    InterviewSession :=
  if !jsTruthyNum session.lastTimerUpdate then
    session
  else
    let elapsedSeconds := Int.fdiv (now - session.lastTimerUpdate.getD 0) 1000
    if elapsedSeconds ≤ 0 then
      session
    else
      let adjustedInstructionTime :=
        if session.isInstructionPhase.getD false then
          max 0 (session.instructionTimeRemaining.getD 60 - elapsedSeconds)
        else
          session.instructionTimeRemaining.getD 60
      let adjustedCodingTime :=
        if session.isInstructionPhase.getD false then
          session.codingTimeRemaining.getD 900
        else
          max 0 (session.codingTimeRemaining.getD 900 - elapsedSeconds)
      { session with
          instructionTimeRemaining := some adjustedInstructionTime
          codingTimeRemaining := some adjustedCodingTime }

/-- The `test-submitted` payload (the fields the server reads or relays). -/
structure SubmitResults where
  sessionId : String
  candidateName : Option String
  score : ℚ
  percentage : Int
  bugsPassed : Nat
  totalBugs : Nat
  timeUsed : Int
  isAutoSubmit : Bool
deriving DecidableEq, Repr

/-- Out-bound socket payloads, one constructor per event type. -/
inductive Payload where
  | sessionsList (l : List InterviewSession)
  | sessionCreated (s : InterviewSession)
  | sessionNotFound
  | sessionExpired (message : String)
  | sessionData (s : InterviewSession)
  | codeUpdate (sessionId code language : String)
  | languageUpdate (sessionId language : String)
  | timerUpdate (sessionId : String) (isInstructionPhase : Bool)
      (instructionTimeRemaining codingTimeRemaining : Int)
  | executionResult (sessionId output : String) (success : Bool)
  | executionUpdate (sessionId output : String) (success : Bool)
  | pasteDetected (sessionId candidateName timestamp : String)
  | candidateTestResults (results : SubmitResults)
deriving DecidableEq, Repr

/-- One delivery instruction of the broadcast router: `socket.emit`,
`socket.broadcast.emit` or `io.emit`. -/
inductive Emit where
  | toSender (p : Payload)
  | broadcastOthers (p : Payload)
  | toAll (p : Payload)
deriving DecidableEq, Repr

/-- Whether `e`, sent by connection `sender`, is delivered to the connected
party `r`. -/
def Emit.deliversTo (e : Emit) (sender r : String) : Bool :=
  match e with
  | .toSender _ => r = sender
  | .broadcastOthers _ => r ≠ sender
  | .toAll _ => true

/-- The `join-session` handler.  Returns the updated store and the emissions
in order (`session-not-found` / `session-expired` / `session-data` then the
refreshed `sessions-list`). -/
def handleJoinSession (now : Int) (sessions : Sessions) (sessionId : String) :
    Sessions × List Emit :=
  match sessions.get sessionId with
  | none => (sessions, [.toSender .sessionNotFound])
  | some session =>
      if session.status = .completed then
        (sessions, [.toSender (.sessionExpired
          "This interview session has been completed and the link is no longer valid.")])
      else
        let session := { session with status := SessionStatus.active }
        let adjustedInstructionTime :=
          if jsTruthyNum session.lastTimerUpdate then
            if session.isInstructionPhase.getD false then
              max 0 (session.instructionTimeRemaining.getD 60 -
                Int.fdiv (now - session.lastTimerUpdate.getD 0) 1000)
            else
              session.instructionTimeRemaining.getD 60
          else
            session.instructionTimeRemaining.getD 60
        let adjustedCodingTime :=
          if jsTruthyNum session.lastTimerUpdate then
            if session.isInstructionPhase.getD false then
              session.codingTimeRemaining.getD 900
            else
              max 0 (session.codingTimeRemaining.getD 900 -
                Int.fdiv (now - session.lastTimerUpdate.getD 0) 1000)
          else
            session.codingTimeRemaining.getD 900
        let session := { session with
          instructionTimeRemaining := some adjustedInstructionTime
          codingTimeRemaining := some adjustedCodingTime
          lastTimerUpdate := some now }
        let sessions := sessions.set sessionId session
        ( sessions,
          [ .toSender (.sessionData { session with
              isInstructionPhase := some (session.isInstructionPhase.getD true) }),
            .toAll (.sessionsList
              (sessions.map (fun kv => getSessionWithAdjustedTimer now kv.2))) ] )

/-- The `code-change` handler: update the stored code (and, when truthy, the
language) and broadcast to everyone but the sender; silently no-op when the
session id is unknown. -/
def handleCodeChange (sessions : Sessions) (sessionId code : String)
    (language : Option String) : Sessions × List Emit :=
  match sessions.get sessionId with
  | none => (sessions, [])
  | some session =>
      let session := { session with code := code }
      let session :=
        if jsTruthyStr language then { session with language := language.getD "" }
        else session
      ( sessions.set sessionId session,
        [.broadcastOthers (.codeUpdate sessionId code session.language)] )

/-- The `language-change` handler. -/
def handleLanguageChange (sessions : Sessions) (sessionId language : String) :
    Sessions × List Emit :=
  match sessions.get sessionId with
  | none => (sessions, [])
  | some session =>
      ( sessions.set sessionId { session with language := language },
        [.broadcastOthers (.languageUpdate sessionId language)] )

/-- The `timer-update` handler: overwrite the timer snapshot, stamp
`lastTimerUpdate = Date.now()`, broadcast to all clients. -/
def handleTimerUpdate (now : Int) (sessions : Sessions) (sessionId : String)
    (isInstructionPhase : Bool) (instructionTimeRemaining codingTimeRemaining : Int) :
    Sessions × List Emit :=
  match sessions.get sessionId with
  | none => (sessions, [])
  | some session =>
      ( sessions.set sessionId { session with
          isInstructionPhase := some isInstructionPhase
          instructionTimeRemaining := some instructionTimeRemaining
          codingTimeRemaining := some codingTimeRemaining
          lastTimerUpdate := some now },
        [.toAll (.timerUpdate sessionId isInstructionPhase
            instructionTimeRemaining codingTimeRemaining)] )

/-- The `test-submitted` handler: mark the session completed when it exists,
then broadcast the payload to all clients unconditionally. -/
def handleTestSubmitted (sessions : Sessions) (results : SubmitResults) :
    Sessions × List Emit :=
  let sessions :=
    match sessions.get results.sessionId with
    | some session =>
        sessions.set results.sessionId { session with status := SessionStatus.completed }
    | none => sessions
  (sessions, [.toAll (.candidateTestResults results)])

/-! ## Score computation (execute-code handler and candidate page) -/

/-- `execute-code` handler: `testResults.filter(t => t.passed).length`. -/
def passedTests (testResults : List TestResult) : Nat :=
  (testResults.filter (·.passed)).length

/-- `execute-code` handler: `testResults.length`. -/
def totalTests (testResults : List TestResult) : Nat :=
  testResults.length

/-- `execute-code` handler: `totalPoints = passedTests * 1.0`, the score the
server prints as `Score: <totalPoints>/10.0 points`. -/
def totalPoints (testResults : List TestResult) : ℚ :=
  (passedTests testResults : ℚ) * 1

/-- JS `Math.round` (round half toward positive infinity). -/
def jsRound (x : ℚ) : ℤ := ⌊x + 1 / 2⌋

/-- The candidate page's `BugResult` record. -/
structure BugResult where
  bugNumber : Nat
  passed : Bool
  points : ℚ
deriving DecidableEq, Repr

/-- `execution-result` handler: `const bugPoints = passed ? 1.0 : 0`. -/
def bugPointsOf (passed : Bool) : ℚ := if passed then 1 else 0

/-- One entry pushed onto `bugTestResults` by the `execution-result` handler. -/
def mkBugResult (bugNumber : Nat) (passed : Bool) : BugResult :=
  ⟨bugNumber, passed, bugPointsOf passed⟩

/-- `execution-result` handler: the flattened points total across all
challenges (`Object.values(updatedResults).flat().reduce((sum, bug) => sum + bug.points, 0)`). -/
def totalOf (allBugs : List BugResult) : ℚ :=
  (allBugs.map (·.points)).sum

/-- `execution-result` handler: `const cappedTotal = Math.min(total, 10)`,
stored in the `totalPoints` state. -/
def cappedTotalOf (allBugs : List BugResult) : ℚ :=
  min (totalOf allBugs) 10

/-- `calculateScore`: `rawScore = Math.round(totalPoints * 10) / 10`. -/
def rawScoreOf (statePoints : ℚ) : ℚ :=
  (jsRound (statePoints * 10) : ℚ) / 10

/-- `calculateScore`: `score = Math.min(rawScore, 10)`. -/
def scoreOf (statePoints : ℚ) : ℚ :=
  min (rawScoreOf statePoints) 10

/-- `calculateScore`: `percentage = Math.round((score / 10) * 100)`. -/
def percentageOf (statePoints : ℚ) : ℤ :=
  jsRound (scoreOf statePoints / 10 * 100)

/-- The parsed outcomes of one execution numbered from `n` upward. -/
def resultsOfFlagsFrom (n : Nat) : List Bool → List BugResult
  | [] => []
  | b :: t => mkBugResult n b :: resultsOfFlagsFrom (n + 1) t

/-- The parsed bug outcomes of one execution, as the candidate page builds
them: the i-th outcome flag becomes a `BugResult` worth 1 point when passed. -/
def resultsOfFlags (flags : List Bool) : List BugResult :=
  resultsOfFlagsFrom 1 flags

/-! ## Concrete instances used to instantiate the theorems -/

/-- A concrete mid-coding-phase session: `codingTimeRemaining = 120`,
stamped at wall-clock millisecond `1000000`. -/
def sampleSession : InterviewSession :=
  { id := "s1", candidateName := "Alice", problem := "Selenium Debugging",
    problemDescription := "Debugging Challenge", code := "old code",
    language := "selenium-senior", status := SessionStatus.active, output := none,
    createdAt := 900000, isInstructionPhase := some false,
    instructionTimeRemaining := some 0, codingTimeRemaining := some 120,
    lastTimerUpdate := some 1000000 }

/-- A concrete `test-submitted` payload. -/
def sampleResults : SubmitResults :=
  { sessionId := "s1", candidateName := some "Alice", score := 4, percentage := 40,
    bugsPassed := 4, totalBugs := 10, timeUsed := 300, isAutoSubmit := false }

/-! ## Supporting lemmas -/

theorem Sessions.get_set_self (m : Sessions) (id : String) (s : InterviewSession) :
    (m.set id s).get id = some s := by
  induction m with
  | nil => simp [Sessions.set, Sessions.get]
  | cons kv rest ih =>
      by_cases h : kv.1 = id
      · simp [Sessions.set, Sessions.get, h]
      · simp [Sessions.set, Sessions.get, h, ih]

theorem totalOf_resultsOfFlagsFrom (n : Nat) (flags : List Bool) :
    totalOf (resultsOfFlagsFrom n flags) = ((flags.filter (fun b => b)).length : ℚ) := by
  induction flags generalizing n with
  | nil => simp [totalOf, resultsOfFlagsFrom]
  | cons b t ih =>
      have hcons : totalOf (resultsOfFlagsFrom n (b :: t)) =
          bugPointsOf b + totalOf (resultsOfFlagsFrom (n + 1) t) := by
        simp [totalOf, resultsOfFlagsFrom, mkBugResult]
      rw [hcons, ih (n + 1)]
      cases b
      · simp [bugPointsOf, List.filter_cons]
      · simp [bugPointsOf, List.filter_cons]
        try push_cast
        try ring

theorem totalOf_resultsOfFlags (flags : List Bool) :
    totalOf (resultsOfFlags flags) = ((flags.filter (fun b => b)).length : ℚ) :=
  totalOf_resultsOfFlagsFrom 1 flags

theorem filter_length_mono_of_forall₂ (bs cs : List Bool)
    (h : List.Forall₂ (fun x y => x ≤ y) bs cs) :
    (bs.filter (fun b => b)).length ≤ (cs.filter (fun b => b)).length := by
  induction h with
  | nil => simp
  | cons hxy htail ih =>
      rename_i x y bs' cs'
      cases x
      · cases y
        · simpa [List.filter_cons] using ih
        · simpa [List.filter_cons] using Nat.le_succ_of_le ih
      · cases y
        · exact absurd hxy (by decide)
        · simpa [List.filter_cons] using Nat.succ_le_succ ih

theorem jsRound_mono {x y : ℚ} (h : x ≤ y) : jsRound x ≤ jsRound y := by
  exact Int.floor_le_floor (by linarith)

theorem scoreOf_mono {x y : ℚ} (h : x ≤ y) : scoreOf x ≤ scoreOf y := by
  unfold scoreOf rawScoreOf
  have hr : jsRound (x * 10) ≤ jsRound (y * 10) := jsRound_mono (by linarith)
  have : ((jsRound (x * 10) : ℚ)) / 10 ≤ ((jsRound (y * 10) : ℚ)) / 10 := by
    have : ((jsRound (x * 10) : ℚ)) ≤ ((jsRound (y * 10) : ℚ)) := by exact_mod_cast hr
    linarith
  exact min_le_min this le_rfl

/-! ## Claim theorems -/

/-- C3: on a stamped timer snapshot with positive elapsed whole seconds,
reconciliation sets the live remaining-duration field to
`max 0 (remaining - elapsed)`, which is never negative and is exactly `0`
whenever the elapsed time exceeds the live remaining value; and in the
concrete scenario, joining a coding-phase session with
`codingTimeRemaining = 120` stamped 47 seconds earlier stores and emits a
reconciled remaining time of `73`. -/
theorem C3_timer_reconciliation :
    (∀ (now : Int) (s : InterviewSession) (last : Int),
      s.lastTimerUpdate = some last → last ≠ 0 →
      0 < Int.fdiv (now - last) 1000 →
      ((s.isInstructionPhase.getD false = false →
        (getSessionWithAdjustedTimer now s).codingTimeRemaining =
          some (max 0 (s.codingTimeRemaining.getD 900 - Int.fdiv (now - last) 1000)) ∧
        0 ≤ max 0 (s.codingTimeRemaining.getD 900 - Int.fdiv (now - last) 1000) ∧
        (s.codingTimeRemaining.getD 900 < Int.fdiv (now - last) 1000 →
          max 0 (s.codingTimeRemaining.getD 900 - Int.fdiv (now - last) 1000) = 0)) ∧
       (s.isInstructionPhase.getD false = true →
        (getSessionWithAdjustedTimer now s).instructionTimeRemaining =
          some (max 0 (s.instructionTimeRemaining.getD 60 - Int.fdiv (now - last) 1000)) ∧
        0 ≤ max 0 (s.instructionTimeRemaining.getD 60 - Int.fdiv (now - last) 1000) ∧
        (s.instructionTimeRemaining.getD 60 < Int.fdiv (now - last) 1000 →
          max 0 (s.instructionTimeRemaining.getD 60 - Int.fdiv (now - last) 1000) = 0)))) ∧
    ((handleJoinSession 1047000 [("s1", sampleSession)] "s1").1.get "s1").map
        (fun s => s.codingTimeRemaining) = some (some 73) ∧
    (handleJoinSession 1047000 [("s1", sampleSession)] "s1").2.head? = some
      (Emit.toSender (Payload.sessionData { sampleSession with
        status := SessionStatus.active, instructionTimeRemaining := some 0,
        codingTimeRemaining := some 73, lastTimerUpdate := some 1047000 })) := by
  refine ⟨fun now s last h h0 he => ?_, by decide, by decide⟩
  have hcond : (!jsTruthyNum s.lastTimerUpdate) = false := by
    simp [jsTruthyNum, h, h0]
  have hfd : Int.fdiv (now - s.lastTimerUpdate.getD 0) 1000 =
      Int.fdiv (now - last) 1000 := by simp [h]
  constructor
  · intro hp
    refine ⟨?_, le_max_left 0 _, fun hlt => max_eq_left (by omega)⟩
    simp only [getSessionWithAdjustedTimer, hcond, Bool.false_eq_true, if_false, hfd]
    rw [if_neg (by omega)]
    simp [hp]
  · intro hp
    refine ⟨?_, le_max_left 0 _, fun hlt => max_eq_left (by omega)⟩
    simp only [getSessionWithAdjustedTimer, hcond, Bool.false_eq_true, if_false, hfd]
    rw [if_neg (by omega)]
    simp [hp]

/-- C3 witness: the general part of `C3_timer_reconciliation` instantiated at
`now = 1047000` and the concrete coding-phase session stamped at `1000000`
with 120 seconds remaining. -/
theorem C3_timer_reconciliation_witness :
    sampleSession.lastTimerUpdate = some 1000000 ∧ (1000000 : ℤ) ≠ 0 ∧
    0 < Int.fdiv (1047000 - 1000000) 1000 ∧
    sampleSession.isInstructionPhase.getD false = false ∧
    max 0 (sampleSession.codingTimeRemaining.getD 900 -
      Int.fdiv (1047000 - 1000000) 1000) = 73 ∧
    (getSessionWithAdjustedTimer 1047000 sampleSession).codingTimeRemaining =
      some (max 0 (sampleSession.codingTimeRemaining.getD 900 -
        Int.fdiv (1047000 - 1000000) 1000)) :=
  ⟨by decide, by decide, by decide, by decide, by decide,
    ((C3_timer_reconciliation.1 1047000 sampleSession 1000000 (by decide) (by decide)
      (by decide)).1 (by decide)).1⟩

/-- C4: reconciliation with no prior wall-clock stamp, or with zero elapsed
whole seconds, returns the stored session unchanged; otherwise the
remaining-duration field of the non-live phase is left untouched and the
`isInstructionPhase` flag is never changed. -/
theorem C4_reconcile_frame_effect (now : Int) (s : InterviewSession) :
    (s.lastTimerUpdate = none → getSessionWithAdjustedTimer now s = s) ∧
    (∀ last, s.lastTimerUpdate = some last → Int.fdiv (now - last) 1000 = 0 →
      getSessionWithAdjustedTimer now s = s) ∧
    (getSessionWithAdjustedTimer now s).isInstructionPhase = s.isInstructionPhase ∧
    (∀ i, s.isInstructionPhase.getD false = false →
      s.instructionTimeRemaining = some i →
      (getSessionWithAdjustedTimer now s).instructionTimeRemaining = some i) ∧
    (∀ c, s.isInstructionPhase.getD false = true →
      s.codingTimeRemaining = some c →
      (getSessionWithAdjustedTimer now s).codingTimeRemaining = some c) := by
  refine ⟨fun h => by simp [getSessionWithAdjustedTimer, jsTruthyNum, h],
    fun last h he => ?_, ?_, fun i hp hi => ?_, fun c hp hc => ?_⟩
  · by_cases h0 : last = 0
    · simp [getSessionWithAdjustedTimer, jsTruthyNum, h, h0]
    · simp only [getSessionWithAdjustedTimer, jsTruthyNum, h]
      rw [if_neg (by simp [h0]), if_pos (by simp [Option.getD, he])]
  · simp only [getSessionWithAdjustedTimer]
    split_ifs <;> rfl
  · simp only [getSessionWithAdjustedTimer, hp, Bool.false_eq_true, if_false]
    split_ifs <;> simp [hi]
  · simp only [getSessionWithAdjustedTimer, hp, if_true]
    split_ifs <;> simp [hc]

/-- C4 witness: `C4_reconcile_frame_effect` instantiated at the concrete
coding-phase session, whose instruction field (the non-live one) is left at
`some 0`. -/
theorem C4_reconcile_frame_effect_witness :
    sampleSession.isInstructionPhase.getD false = false ∧
    sampleSession.instructionTimeRemaining = some 0 ∧
    (getSessionWithAdjustedTimer 1047000 sampleSession).instructionTimeRemaining =
      some 0 :=
  ⟨by decide, by decide,
    (C4_reconcile_frame_effect 1047000 sampleSession).2.2.2.1 0 (by decide) (by decide)⟩

/-- C5: joining an id absent from the store emits exactly the
`session-not-found` signal, joining a completed session emits exactly the
distinct `session-expired` signal (and in neither case a session payload),
and the two signals are distinct payload values. -/
theorem C5_join_not_found_vs_expired (now : Int) (m : Sessions) (id : String) :
    (m.get id = none →
      handleJoinSession now m id = (m, [Emit.toSender Payload.sessionNotFound])) ∧
    (∀ s, m.get id = some s → s.status = SessionStatus.completed →
      handleJoinSession now m id = (m, [Emit.toSender (Payload.sessionExpired
        "This interview session has been completed and the link is no longer valid.")])) ∧
    (∀ msg, Payload.sessionNotFound ≠ Payload.sessionExpired msg) := by
  refine ⟨fun h => ?_, fun s h hc => ?_, fun msg => by simp⟩
  · simp [handleJoinSession, h]
  · simp [handleJoinSession, h, hc]

/-- C5 witness: `C5_join_not_found_vs_expired` applied to a store holding only
a completed session, joined under its own id. -/
theorem C5_join_not_found_vs_expired_witness :
    Sessions.get [("s1", { sampleSession with status := SessionStatus.completed })] "s1" =
      some { sampleSession with status := SessionStatus.completed } ∧
    handleJoinSession 1047000
        [("s1", { sampleSession with status := SessionStatus.completed })] "s1" =
      ([("s1", { sampleSession with status := SessionStatus.completed })],
        [Emit.toSender (Payload.sessionExpired
          "This interview session has been completed and the link is no longer valid.")]) :=
  ⟨by decide,
    (C5_join_not_found_vs_expired 1047000
        [("s1", { sampleSession with status := SessionStatus.completed })] "s1").2.1
      { sampleSession with status := SessionStatus.completed } (by decide) rfl⟩

/-- C7: grading a challenge-variant identifier with no rule-table entry
returns, for every source text, exactly one synthetic outcome whose passed
flag is false. -/
theorem C7_unknown_variant_single_failure (code lang : String)
    (h1 : lang ≠ "selenium-senior") (h2 : lang ≠ "java-calculator")
    (h3 : lang ≠ "selenium-combined") (h4 : lang ≠ "selenium-pageobject")
    (h5 : lang ≠ "selenium-waits") (h6 : lang ≠ "selenium-locators") :
    analyzeDebugFixes code lang =
      [{ name := "Unknown Test", passed := false,
         message := "Select a debugging challenge to see test results" }] := by
  simp [analyzeDebugFixes, h1, h2, h3, h4, h5, h6]

/-- C7 witness: the unknown variant `"python"` on a concrete source text. -/
theorem C7_unknown_variant_single_failure_witness :
    ("python" ≠ "selenium-senior") ∧
    analyzeDebugFixes "class A {}" "python" =
      [{ name := "Unknown Test", passed := false,
         message := "Select a debugging challenge to see test results" }] :=
  ⟨by decide, C7_unknown_variant_single_failure "class A {}" "python"
    (by decide) (by decide) (by decide) (by decide) (by decide) (by decide)⟩

/-- C9: a `code-change` for an existing session produces exactly one
emission, a sender-excluded broadcast of the new code: it is never delivered
to the originating connection and is delivered to every other connected
party. -/
theorem C9_code_change_sender_excluded (m : Sessions) (sessionId code : String)
    (language : Option String) (s : InterviewSession) (sender other : String)
    (h : m.get sessionId = some s) :
    ∃ p, (handleCodeChange m sessionId code language).2 = [Emit.broadcastOthers p] ∧
      Emit.deliversTo (Emit.broadcastOthers p) sender sender = false ∧
      (other ≠ sender → Emit.deliversTo (Emit.broadcastOthers p) sender other = true) := by
  refine ⟨Payload.codeUpdate sessionId code
    (if jsTruthyStr language then language.getD "" else s.language), ?_, ?_, fun ho => ?_⟩
  · simp only [handleCodeChange, h]
    split_ifs <;> simp
  · simp [Emit.deliversTo]
  · simp [Emit.deliversTo, ho]

/-- C9 witness: `C9_code_change_sender_excluded` on a singleton store, with
distinct sender and receiver connection ids. -/
theorem C9_code_change_sender_excluded_witness :
    Sessions.get [("s1", sampleSession)] "s1" = some sampleSession ∧
    ∃ p, (handleCodeChange [("s1", sampleSession)] "s1" "new code" none).2 =
        [Emit.broadcastOthers p] ∧
      Emit.deliversTo (Emit.broadcastOthers p) "connA" "connA" = false ∧
      ("connB" ≠ "connA" → Emit.deliversTo (Emit.broadcastOthers p) "connA" "connB" = true) :=
  ⟨by decide, C9_code_change_sender_excluded [("s1", sampleSession)] "s1" "new code"
    none sampleSession "connA" "connB" (by decide)⟩

/-- C10: a `test-submitted` event broadcasts the candidate-test-results
payload to all connected parties unconditionally (also when the session id is
absent or already completed: the emission does not depend on the store at
all), while the status is set to completed only when the session exists. -/
theorem C10_test_submitted_unconditional_broadcast (m : Sessions)
    (results : SubmitResults) :
    (handleTestSubmitted m results).2 =
      [Emit.toAll (Payload.candidateTestResults results)] ∧
    (m.get results.sessionId = none → (handleTestSubmitted m results).1 = m) ∧
    (∀ s, m.get results.sessionId = some s →
      (handleTestSubmitted m results).1.get results.sessionId =
        some { s with status := SessionStatus.completed }) := by
  refine ⟨rfl, fun h => ?_, fun s h => ?_⟩
  · simp [handleTestSubmitted, h]
  · simp [handleTestSubmitted, h, Sessions.get_set_self]

/-- C10 witness: `C10_test_submitted_unconditional_broadcast` on a store that
does not contain the submitted session id, so the broadcast still happens and
the store is unchanged. -/
theorem C10_test_submitted_unconditional_broadcast_witness :
    Sessions.get [] sampleResults.sessionId = none ∧
    (handleTestSubmitted [] sampleResults).1 = ([] : Sessions) ∧
    (handleTestSubmitted [] sampleResults).2 =
      [Emit.toAll (Payload.candidateTestResults sampleResults)] :=
  ⟨by decide,
    (C10_test_submitted_unconditional_broadcast [] sampleResults).2.1 (by decide),
    (C10_test_submitted_unconditional_broadcast [] sampleResults).1⟩

/-- C1 counterexample: with a completed session in the store, a `code-change`
event still overwrites the stored code and still broadcasts the changed
value, and a `timer-update` event still overwrites the timer snapshot and
still broadcasts it - refuting the claim that a completed session sees no
stored mutation and no broadcast. -/
theorem C1_counterexample :
    ({ sampleSession with status := SessionStatus.completed } : InterviewSession).status =
      SessionStatus.completed ∧
    ((handleCodeChange [("s1", { sampleSession with status := SessionStatus.completed })]
        "s1" "mutated code" none).1.get "s1").map (fun x => x.code) =
      some "mutated code" ∧
    "mutated code" ≠ sampleSession.code ∧
    (handleCodeChange [("s1", { sampleSession with status := SessionStatus.completed })]
        "s1" "mutated code" none).2 =
      [Emit.broadcastOthers (Payload.codeUpdate "s1" "mutated code" "selenium-senior")] ∧
    ((handleTimerUpdate 1050000 [("s1", { sampleSession with status := SessionStatus.completed })]
        "s1" false 0 42).1.get "s1").map (fun x => x.codingTimeRemaining) =
      some (some 42) ∧
    (handleTimerUpdate 1050000 [("s1", { sampleSession with status := SessionStatus.completed })]
        "s1" false 0 42).2 = [Emit.toAll (Payload.timerUpdate "s1" false 0 42)] := by
  decide

/-- C1 (amended): the `code-change` and `timer-update` handlers do not check
the completed status at all - for any existing session, completed included,
they store the new code / timer snapshot and broadcast the changed values
exactly as for an active session (only `join-session` rejects completed
sessions). -/
theorem C1_completed_session_still_mutated (m : Sessions) (id c : String)
    (lang : Option String) (now instr coding : Int) (phase : Bool)
    (s : InterviewSession) (h : m.get id = some s)
    (_hc : s.status = SessionStatus.completed) :
    ((handleCodeChange m id c lang).1.get id).map (fun x => x.code) = some c ∧
    (handleCodeChange m id c lang).2 = [Emit.broadcastOthers (Payload.codeUpdate id c
      (if jsTruthyStr lang then lang.getD "" else s.language))] ∧
    (handleTimerUpdate now m id phase instr coding).1.get id =
      some { s with
        isInstructionPhase := some phase
        instructionTimeRemaining := some instr
        codingTimeRemaining := some coding
        lastTimerUpdate := some now } ∧
    (handleTimerUpdate now m id phase instr coding).2 =
      [Emit.toAll (Payload.timerUpdate id phase instr coding)] := by
  refine ⟨?_, ?_, ?_, ?_⟩
  · simp only [handleCodeChange, h]
    split_ifs <;> simp [Sessions.get_set_self]
  · simp only [handleCodeChange, h]
    split_ifs with ht <;> simp [ht]
  · simp [handleTimerUpdate, h, Sessions.get_set_self]
  · simp [handleTimerUpdate, h]

/-- C1 witness: `C1_completed_session_still_mutated` applied to a singleton
store holding a completed session. -/
theorem C1_completed_session_still_mutated_witness :
    Sessions.get [("s1", { sampleSession with status := SessionStatus.completed })] "s1" =
      some { sampleSession with status := SessionStatus.completed } ∧
    ({ sampleSession with status := SessionStatus.completed } : InterviewSession).status =
      SessionStatus.completed ∧
    ((handleCodeChange [("s1", { sampleSession with status := SessionStatus.completed })]
        "s1" "new code" none).1.get "s1").map (fun x => x.code) = some "new code" :=
  ⟨by decide, by decide,
    (C1_completed_session_still_mutated
      [("s1", { sampleSession with status := SessionStatus.completed })] "s1" "new code"
      none 1050000 0 42 false { sampleSession with status := SessionStatus.completed }
      (by decide) rfl).1⟩

/-- C2 counterexample: the variant `selenium-locators` defines 4 bug rules and
the empty source text passes all 4 of them (a full clean sweep), yet the
execute-code handler scores it `4.0`, not the claimed maximum `10`; the
hard-coded per-bug point value `1.0` is not `10 / 4`. -/
theorem C2_counterexample :
    totalTests (analyzeDebugFixes "" "selenium-locators") = 4 ∧
    (analyzeDebugFixes "" "selenium-locators").all (fun r => r.passed) = true ∧
    totalPoints (analyzeDebugFixes "" "selenium-locators") = 4 ∧
    totalPoints (analyzeDebugFixes "" "selenium-locators") ≠ 10 ∧
    (1 : ℚ) ≠ 10 / (totalTests (analyzeDebugFixes "" "selenium-locators") : ℚ) := by
  have h4 : passedTests (analyzeDebugFixes "" "selenium-locators") = 4 := by decide
  have ht : totalTests (analyzeDebugFixes "" "selenium-locators") = 4 := by decide
  refine ⟨by decide, by decide, ?_, ?_, ?_⟩
  · rw [totalPoints, h4]; norm_num
  · rw [totalPoints, h4]; norm_num
  · rw [ht]; norm_num

/-- C2 (amended): the per-bug point value is hard-coded to `1.0` (server
`totalPoints = passedTests * 1.0`, client `bugPoints = passed ? 1.0 : 0`)
rather than derived as maximum / rule count, so a full clean sweep scores
exactly the variant's rule count - `10` only for the 10-rule
`selenium-senior` variant, `8` for `java-calculator`, `4` for
`selenium-locators`. -/
theorem C2_per_bug_point_value (code lang : String) :
    ((analyzeDebugFixes code lang).all (fun r => r.passed) = true →
      totalPoints (analyzeDebugFixes code lang) =
        (totalTests (analyzeDebugFixes code lang) : ℚ)) ∧
    bugPointsOf true = 1 ∧
    totalTests (analyzeDebugFixes code "selenium-senior") = 10 ∧
    totalTests (analyzeDebugFixes code "java-calculator") = 8 ∧
    totalTests (analyzeDebugFixes code "selenium-locators") = 4 := by
  refine ⟨fun hall => ?_, rfl, ?_, ?_, ?_⟩
  · have hf : (analyzeDebugFixes code lang).filter (fun r => r.passed) =
        analyzeDebugFixes code lang := by
      rw [List.filter_eq_self]
      exact List.all_eq_true.mp hall
    rw [totalPoints, passedTests, hf, totalTests, mul_one]
  · have hb : analyzeDebugFixes code "selenium-senior" = seleniumSeniorResults code := by
      rw [analyzeDebugFixes, if_pos rfl]
    simp [totalTests, hb, seleniumSeniorResults]
  · have hb : analyzeDebugFixes code "java-calculator" = javaCalculatorResults code := by
      rw [analyzeDebugFixes, if_neg (by decide), if_pos rfl]
    simp [totalTests, hb, javaCalculatorResults]
  · have hb : analyzeDebugFixes code "selenium-locators" = seleniumLocatorsResults code := by
      rw [analyzeDebugFixes, if_neg (by decide), if_neg (by decide), if_neg (by decide),
        if_neg (by decide), if_neg (by decide), if_pos rfl]
    simp [totalTests, hb, seleniumLocatorsResults]

/-- C2 witness: the full-clean-sweep part of `C2_per_bug_point_value` at the
empty source and the `selenium-locators` variant. -/
theorem C2_per_bug_point_value_witness :
    (analyzeDebugFixes "" "selenium-locators").all (fun r => r.passed) = true ∧
    totalPoints (analyzeDebugFixes "" "selenium-locators") =
      (totalTests (analyzeDebugFixes "" "selenium-locators") : ℚ) :=
  ⟨by decide, (C2_per_bug_point_value "" "selenium-locators").1 (by decide)⟩

/-- C6: the aggregate score is monotonically non-decreasing as outcomes flip
from fail to pass, is capped at the maximum 10 however many outcomes are
passed, and the reported percentage equals `Math.round(score / 10 * 100)` of
the capped score. -/
theorem C6_score_monotone_capped (bs cs : List Bool)
    (h : List.Forall₂ (fun x y => x ≤ y) bs cs) :
    scoreOf (cappedTotalOf (resultsOfFlags bs)) ≤
      scoreOf (cappedTotalOf (resultsOfFlags cs)) ∧
    (∀ ds : List Bool, scoreOf (cappedTotalOf (resultsOfFlags ds)) ≤ 10) ∧
    (∀ t : ℚ, percentageOf t = jsRound (scoreOf t / 10 * 100)) := by
  refine ⟨?_, fun ds => min_le_right _ _, fun t => rfl⟩
  apply scoreOf_mono
  unfold cappedTotalOf
  refine min_le_min ?_ le_rfl
  rw [totalOf_resultsOfFlags, totalOf_resultsOfFlags]
  exact_mod_cast filter_length_mono_of_forall₂ bs cs h

/-- C6 witness: `C6_score_monotone_capped` at a concrete fail-to-pass flip. -/
theorem C6_score_monotone_capped_witness :
    List.Forall₂ (fun x y : Bool => x ≤ y) [false, true, false] [true, true, false] ∧
    scoreOf (cappedTotalOf (resultsOfFlags [false, true, false])) ≤
      scoreOf (cappedTotalOf (resultsOfFlags [true, true, false])) :=
  ⟨List.Forall₂.cons (by decide) (List.Forall₂.cons (by decide)
      (List.Forall₂.cons (by decide) List.Forall₂.nil)),
    (C6_score_monotone_capped [false, true, false] [true, true, false]
      (List.Forall₂.cons (by decide) (List.Forall₂.cons (by decide)
        (List.Forall₂.cons (by decide) List.Forall₂.nil)))).1⟩

/-- C8: grading is deterministic - the embedded grader is a total function of
the source text and the variant id alone (the source reads no external state
and uses no randomness), so identical inputs yield identical ordered outcome
lists; moreover the outcome names are a fixed sequence per variant,
independent of the source text. -/
theorem C8_grading_deterministic (lang code code2 : String) :
    (code = code2 → analyzeDebugFixes code lang = analyzeDebugFixes code2 lang) ∧
    (analyzeDebugFixes code lang).map (fun r => r.name) =
      (analyzeDebugFixes code2 lang).map (fun r => r.name) := by
  refine ⟨fun h => by rw [h], ?_⟩
  unfold analyzeDebugFixes
  split_ifs <;>
    simp [seleniumSeniorResults, javaCalculatorResults, seleniumCombinedResults,
      seleniumPageobjectResults, seleniumWaitsResults, seleniumLocatorsResults]

/-- C8 witness: `C8_grading_deterministic` applied at equal concrete inputs. -/
theorem C8_grading_deterministic_witness :
    ("a + b" : String) = "a + b" ∧
    analyzeDebugFixes "a + b" "java-calculator" =
      analyzeDebugFixes "a + b" "java-calculator" :=
  ⟨rfl, (C8_grading_deterministic "java-calculator" "a + b" "a + b").1 rfl⟩

end InterviewPortal
